import Mathlib

/-!
Verification development for the angular-directed-graph rendering library.

The path smoothing engine (paths.ts) and the graph camera (graph_camera.ts)
are shallowly embedded below.  Numbers are modelled as rationals; the one
irrational primitive of the source, `Math.sqrt`, is abstracted as an explicit
function parameter `sq : ℚ → ℚ` threaded through the definitions that use it,
so every definition stays computable and every theorem quantifies over the
square-root implementation (holding in particular for the real one).
-/

namespace DirectedGraph

/-- Modelled from the spec: the data-model file (model.ts) is not among the
sources, so `RankDirection` is taken from the design document, which lists the
four flow directions of the hierarchical layout. -/
inductive RankDirection
  | TOP_TO_BOTTOM
  | BOTTOM_TO_TOP
  | LEFT_TO_RIGHT
  | RIGHT_TO_LEFT
  deriving DecidableEq, Repr

/-- Modelled from the spec: a Point is an `x, y` pair. -/
structure Point where
  x : ℚ
  y : ℚ
  deriving DecidableEq, Repr, Inhabited

/-- Modelled from the spec: a Node has an id, a position assigned by the
layout oracle (absent before layout runs, hence optional), and a width and
height supplied by the caller. -/
structure Node where
  id : String
  x : Option ℚ
  y : Option ℚ
  width : ℚ
  height : ℚ
  deriving DecidableEq, Repr

/-- Modelled from the spec: an Edge connects a src Node to a dest Node through
an ordered list of waypoints suggested by the layout oracle. -/
structure Edge where
  src : Node
  dest : Node
  points : List Point
  deriving DecidableEq, Repr

/-- Modelled from the spec: layout options; the path engine only reads the
rank direction, so only that field is embedded. -/
structure LayoutOptions where
  rankDirection : RankDirection
  deriving DecidableEq, Repr

/-- Embeds the mutable 2d Vector class of paths.ts as an immutable value;
each mutating method becomes a function returning the updated vector. -/
structure Vector where
  x : ℚ
  y : ℚ
  deriving DecidableEq, Repr, Inhabited

/-- Embeds Vector.invert: flips the vector to point in the opposite
direction. -/
def Vector.invert (v : Vector) : Vector :=
  ⟨v.x * (-1), v.y * (-1)⟩

/-- Embeds Vector.multiplyScalar: scales the vector by the given amount. -/
def Vector.multiplyScalar (v : Vector) (amount : ℚ) : Vector :=
  ⟨v.x * amount, v.y * amount⟩

/-- Embeds Vector.dot: the scalar dot product with another vector. -/
def Vector.dot (v other : Vector) : ℚ :=
  v.x * other.x + v.y * other.y

/-- Embeds Vector.length: `Math.sqrt(x*x + y*y)`, with the square root
supplied as the parameter `sq`. -/
def Vector.lengthOf (sq : ℚ → ℚ) (v : Vector) : ℚ :=
  sq (v.x * v.x + v.y * v.y)

/-- Embeds Vector.normalize: scale by `1/length`, or by 0 when the length is
exactly 0 (the source's guard against division by zero). -/
def Vector.normalize (sq : ℚ → ℚ) (v : Vector) : Vector :=
  let length := Vector.lengthOf sq v
  let multiplyBy := if length = 0 then 0 else 1 / length
  Vector.multiplyScalar v multiplyBy

/-- Embeds `Math.round` of the host language: round half toward positive
infinity. -/
def jsRound (q : ℚ) : ℤ :=
  ⌊q + 1 / 2⌋

/-- Embeds Vector.round: round each component to the given number of decimal
places. -/
def Vector.roundTo (v : Vector) (numDecialPoints : ℕ) : Vector :=
  let scaleBy : ℚ := (10 : ℚ) ^ numDecialPoints
  ⟨(jsRound (v.x * scaleBy) : ℚ) / scaleBy, (jsRound (v.y * scaleBy) : ℚ) / scaleBy⟩

/-- Embeds createVectorBetweenPoints: the vector covering the distance from
p1 to p2. -/
def createVectorBetweenPoints (p1 p2 : Point) : Vector :=
  ⟨p2.x - p1.x, p2.y - p1.y⟩

/-- Embeds createNewPointOffsetBy: a new point offset from p1 by the vector
v. -/
def createNewPointOffsetBy (p1 : Point) (v : Vector) : Point :=
  ⟨p1.x + v.x, p1.y + v.y⟩

/-- Embeds createPerpendicularVector: rotate 90 degrees counter-clockwise. -/
def createPerpendicularVector (v : Vector) : Vector :=
  ⟨-v.y, v.x⟩

/-- Embeds the LAYOUT_CURVE_FORCE_PX constant of paths.ts. -/
def LAYOUT_CURVE_FORCE_PX : ℚ := 20

/-- Embeds the SMOOTH_CURVE_FORCE_PX constant of paths.ts. -/
def SMOOTH_CURVE_FORCE_PX : ℚ := 2

/-- Embeds the UNIMPORTANT_POINT_DISTANCE_THRESHOLD_PX constant of
paths.ts. -/
def UNIMPORTANT_POINT_DISTANCE_THRESHOLD_PX : ℚ := 20

/-- Renders a number the way the source's template literals do.  The host
language prints integral numbers without a decimal point, which this agrees
with; non-integral rationals are rendered as `num/den` (the claims under
proof only evaluate the rendering on integers). -/
def numStr (q : ℚ) : String :=
  if q.den = 1 then toString q.num else toString q.num ++ "/" ++ toString q.den

/-- Renders a point as the source's template `x,y`. -/
def pointStr (p : Point) : String :=
  numStr p.x ++ "," ++ numStr p.y

/-- Embeds pointsToLines: a series of straight lines connecting the points;
the optional argument mirrors the `points?: Point[]` signature. -/
def pointsToLines (points : Option (List Point)) : String :=
  match points with
  | none => ""
  | some ps =>
    if ps.length < 2 then ""
    else
      let coords := ps.map pointStr
      let joinedCoords := String.intercalate (" ") coords
      "M " ++ joinedCoords

/-- Embeds getLayoutVector: the unit vector of the layout flow. -/
def getLayoutVector (layout : LayoutOptions) : Vector :=
  match layout.rankDirection with
  | .LEFT_TO_RIGHT => ⟨1, 0⟩
  | .RIGHT_TO_LEFT => ⟨-1, 0⟩
  | .BOTTOM_TO_TOP => ⟨0, -1⟩
  | .TOP_TO_BOTTOM => ⟨0, 1⟩

/-- Embeds isLineGoingBackwards: multiply the delta between the two points
component-wise by the layout direction and test either component for
negativity. -/
def isLineGoingBackwards (p1 p2 : Point) (layoutDirection : Vector) : Bool :=
  let delta := createVectorBetweenPoints p1 p2
  let delta : Vector := ⟨delta.x * layoutDirection.x, delta.y * layoutDirection.y⟩
  decide (delta.x < 0) || decide (delta.y < 0)

/-- Embeds doesPathGoBackwards: true if any consecutive segment of the path
goes against the layout flow. -/
def doesPathGoBackwards (points : List Point) (layout : LayoutOptions) : Bool :=
  let layoutDirection := getLayoutVector layout
  (List.range (points.length - 1)).any fun i =>
    isLineGoingBackwards (points.getD i default) (points.getD (i + 1) default)
      layoutDirection

/-- Embeds getDistanceFromLine: scalar-project the start-to-point vector onto
the unit vector perpendicular to the line and take the absolute value. -/
def getDistanceFromLine (sq : ℚ → ℚ) (lineStart lineEnd point : Point) : ℚ :=
  let line := Vector.normalize sq (createVectorBetweenPoints lineStart lineEnd)
  let perpendicularLine := createPerpendicularVector line
  let toProject := createVectorBetweenPoints lineStart point
  |Vector.dot toProject perpendicularLine|

/-- Embeds isPointUnimportant: false for the first and last points (the
source's `!next || !prior` guard), otherwise the distance-from-line test
against the 20px threshold. -/
def isPointUnimportant (sq : ℚ → ℚ) (points : List Point) (i : ℕ) : Bool :=
  if i = 0 ∨ points.length ≤ i + 1 then false
  else
    let point := points.getD i default
    let next := points.getD (i + 1) default
    let prior := points.getD (i - 1) default
    decide (getDistanceFromLine sq prior next point ≤ UNIMPORTANT_POINT_DISTANCE_THRESHOLD_PX)

/-- Embeds the PathPointData interface: a point with its incoming and
outgoing bezier control points. -/
structure PathPointData where
  point : Point
  incomingControlPoint : Point
  outgoingControlPoint : Point
  deriving DecidableEq, Repr, Inhabited

/-- Embeds getLayoutCurvedControlPoints: control points aligned with the
layout flow, offset by the 20px layout curve force. -/
def getLayoutCurvedControlPoints (point : Point) (layout : LayoutOptions) : PathPointData :=
  let layoutForce := Vector.multiplyScalar (getLayoutVector layout) LAYOUT_CURVE_FORCE_PX
  let outgoingControlPoint := createNewPointOffsetBy point layoutForce
  let layoutForce := Vector.invert layoutForce
  let incomingControlPoint := createNewPointOffsetBy point layoutForce
  ⟨point, incomingControlPoint, outgoingControlPoint⟩

/-- Embeds getSmoothedControlPoints: control points parallel to the line
between the neighbours of the point, scaled to 2px and rounded to 2 decimal
places; the point itself is the fallback neighbour at the boundaries. -/
def getSmoothedControlPoints (sq : ℚ → ℚ) (points : List Point) (i : ℕ) : PathPointData :=
  let point := points.getD i default
  let next := points.getD (i + 1) point
  let prior := if i = 0 then point else points.getD (i - 1) point
  let smoothForce := createVectorBetweenPoints prior next
  let smoothForce := Vector.roundTo
    (Vector.multiplyScalar (Vector.normalize sq smoothForce) SMOOTH_CURVE_FORCE_PX) 2
  let outgoingControlPoint := createNewPointOffsetBy point smoothForce
  let smoothForce := Vector.invert smoothForce
  let incomingControlPoint := createNewPointOffsetBy point smoothForce
  ⟨point, incomingControlPoint, outgoingControlPoint⟩

/-- Embeds createPointData: per point, smoothed control points when the whole
path goes backwards or the point is unimportant, layout-curved control points
otherwise. -/
def createPointData (sq : ℚ → ℚ) (points : List Point) (layout : LayoutOptions) :
    List PathPointData :=
  let goesBackwards := doesPathGoBackwards points layout
  (List.range points.length).map fun i =>
    if goesBackwards then getSmoothedControlPoints sq points i
    else if isPointUnimportant sq points i then getSmoothedControlPoints sq points i
    else getLayoutCurvedControlPoints (points.getD i default) layout

/-- Embeds moveTo: the SVG move-to command for a point. -/
def moveTo (p : Point) : String :=
  "M " ++ pointStr p

/-- Embeds cubicBezierTo: the SVG cubic bezier command from the current point
to dest through the two control points. -/
def cubicBezierTo (dest controlPoint1 controlPoint2 : Point) : String :=
  "C " ++ pointStr controlPoint1 ++ " " ++ pointStr controlPoint2 ++ " " ++ pointStr dest

/-- Embeds createPathFromPointData: a move-to for the first point followed by
a cubic bezier segment per consecutive pair, joined by spaces. -/
def createPathFromPointData (points : List PathPointData) : String :=
  let segments := (List.range (points.length - 1)).foldl
    (fun segments i =>
      let src := points.getD i default
      let dest := points.getD (i + 1) default
      let cp1 := src.outgoingControlPoint
      let cp2 := dest.incomingControlPoint
      let segments := if i = 0 then segments ++ [moveTo src.point] else segments
      segments ++ [cubicBezierTo dest.point cp1 cp2])
    []
  String.intercalate (" ") segments

/-- Embeds the connector-point pair returned by getConnectorPointsForNode. -/
structure NodeConnectors where
  input : Point
  output : Point
  deriving DecidableEq, Repr

/-- Embeds getConnectorPointsForNode: the node's center offset to its border
along the layout flow axis.  The source asserts the position non-null with
`node.x!`; the embedding reads the optional position with a default that the
claims never exercise. -/
def getConnectorPointsForNode (node : Node) (layout : LayoutOptions) : NodeConnectors :=
  let center : Point := ⟨node.x.getD 0, node.y.getD 0⟩
  match layout.rankDirection with
  | .LEFT_TO_RIGHT =>
      ⟨⟨center.x - node.width / 2, center.y⟩, ⟨center.x + node.width / 2, center.y⟩⟩
  | .RIGHT_TO_LEFT =>
      ⟨⟨center.x + node.width / 2, center.y⟩, ⟨center.x - node.width / 2, center.y⟩⟩
  | .BOTTOM_TO_TOP =>
      ⟨⟨center.x, center.y + node.height / 2⟩, ⟨center.x, center.y - node.height / 2⟩⟩
  | .TOP_TO_BOTTOM =>
      ⟨⟨center.x, center.y - node.height / 2⟩, ⟨center.x, center.y + node.height / 2⟩⟩

/-- Embeds the entry normalization and connector pinning of curvedPath
(lines 69 to 81 of paths.ts): an empty waypoint list is replaced by two
slots, then index 0 is overwritten with the src output connector and index
`length - 1` with the dest input connector. -/
def pinnedPoints (edge : Edge) (layout : LayoutOptions) : List Point :=
  let points := edge.points
  let points := if points.length = 0 then [default, default] else points
  let srcConnectors := getConnectorPointsForNode edge.src layout
  let destConnectors := getConnectorPointsForNode edge.dest layout
  let points := points.set 0 srcConnectors.output
  points.set (points.length - 1) destConnectors.input

/-- Embeds curvedPath: pin the endpoints, compute per-point control data and
assemble the SVG path string. -/
def curvedPath (sq : ℚ → ℚ) (edge : Edge) (layout : LayoutOptions) : String :=
  let points := pinnedPoints edge layout
  let data := createPointData sq points layout
  createPathFromPointData data

/-- Embeds the host language's falsiness test on an optional number: absent
values and zero are both falsy. -/
def jsFalsy (q : Option ℚ) : Bool :=
  match q with
  | none => true
  | some v => decide (v = 0)

/-- Embeds trianglePoints: the arrowhead triangle at the dest node's
connector, throwing a range error when `!edge.dest.x || !edge.dest.y`. -/
def trianglePoints (edge : Edge) (layout : LayoutOptions) : Except String String :=
  let triangleSideLength : ℚ := 10
  let triangleHeightScale : ℚ := 86602540378 / 100000000000
  if jsFalsy edge.dest.x || jsFalsy edge.dest.y then
    Except.error ("Edge point should not be a nullish value.")
  else
    let center : Point := ⟨edge.dest.x.getD 0, edge.dest.y.getD 0⟩
    let trianglePts : List Point :=
      match layout.rankDirection with
      | .LEFT_TO_RIGHT =>
        let connector : Point := ⟨center.x - edge.dest.width / 2, center.y⟩
        [connector,
         ⟨connector.x - triangleSideLength * triangleHeightScale,
          connector.y - triangleSideLength / 2⟩,
         ⟨connector.x - triangleSideLength * triangleHeightScale,
          connector.y + triangleSideLength / 2⟩]
      | .RIGHT_TO_LEFT =>
        let connector : Point := ⟨center.x + edge.dest.width / 2, center.y⟩
        [connector,
         ⟨connector.x + triangleSideLength * triangleHeightScale,
          connector.y - triangleSideLength / 2⟩,
         ⟨connector.x + triangleSideLength * triangleHeightScale,
          connector.y + triangleSideLength / 2⟩]
      | .TOP_TO_BOTTOM =>
        let connector : Point := ⟨center.x, center.y - edge.dest.height / 2⟩
        [connector,
         ⟨connector.x - triangleSideLength / 2,
          connector.y - triangleSideLength * triangleHeightScale⟩,
         ⟨connector.x + triangleSideLength / 2,
          connector.y - triangleSideLength * triangleHeightScale⟩]
      | .BOTTOM_TO_TOP =>
        let connector : Point := ⟨center.x, center.y + edge.dest.height / 2⟩
        [connector,
         ⟨connector.x - triangleSideLength / 2,
          connector.y + triangleSideLength * triangleHeightScale⟩,
         ⟨connector.x + triangleSideLength / 2,
          connector.y + triangleSideLength * triangleHeightScale⟩]
    Except.ok (String.intercalate (" ") (trianglePts.map pointStr))

/-- Embeds the ZOOM_SENSITIVITY constant of graph_camera.ts. -/
def ZOOM_SENSITIVITY : ℚ := 4 / 10

/-- Embeds the MAC_ZOOM_SENSITIVITY constant of graph_camera.ts. -/
def MAC_ZOOM_SENSITIVITY : ℚ := 9 / 100

/-- Embeds the zoomScaleSensitivity option passed to the pan/zoom library in
the GraphCamera constructor: the Macintosh-specific constant is used exactly
here, for scroll-wheel zooming. -/
def zoomScaleSensitivity (isMac : Bool) : ℚ :=
  if isMac then MAC_ZOOM_SENSITIVITY else ZOOM_SENSITIVITY

/-- Embeds a smoothZoom invocation: the target magnification together with
the animation duration in milliseconds. -/
structure SmoothZoomRequest where
  target : ℚ
  durationMs : ℚ
  deriving DecidableEq, Repr

/-- Embeds GraphCamera.zoomIn: target = current zoom times
`1 + ZOOM_SENSITIVITY`, passed to smoothZoom with its default 250ms
duration. -/
def GraphCamera.zoomIn (currentZoom : ℚ) : SmoothZoomRequest :=
  let scale := 1 + ZOOM_SENSITIVITY
  ⟨currentZoom * scale, 250⟩

/-- Embeds GraphCamera.zoomOut: target = current zoom times
`1 / (1 + ZOOM_SENSITIVITY)`, passed to smoothZoom with its default 250ms
duration. -/
def GraphCamera.zoomOut (currentZoom : ℚ) : SmoothZoomRequest :=
  let scale := 1 / (1 + ZOOM_SENSITIVITY)
  ⟨currentZoom * scale, 250⟩

/-- Follows the claim's words, for comparison with the source-derived
GraphCamera.zoomIn: the claim says zoomIn multiplies the current zoom by
`1 + s` with `s` a platform-dependent sensitivity, smaller on the Macintosh
platform family. -/
def zoomInTargetPerClaim (isMac : Bool) (currentZoom : ℚ) : ℚ :=
  currentZoom * (1 + zoomScaleSensitivity isMac)

/-- Embeds the three animation channels of GraphCamera: a channel is true
while an animation started on it has neither finished nor been stopped by its
stored stop function. -/
structure AnimChannels where
  pan : Bool
  zoom : Bool
  panAndZoom : Bool
  deriving DecidableEq, Repr

/-- Embeds the freshly constructed camera: the three stop functions start as
no-ops, no animation in flight. -/
def camInit : AnimChannels :=
  ⟨false, false, false⟩

/-- Embeds GraphCamera.smoothPan's effect on the channels: stop the pan
channel, then start a new pan animation on it. -/
def AnimChannels.smoothPan (s : AnimChannels) : AnimChannels :=
  { s with pan := true }

/-- Embeds GraphCamera.smoothZoom's effect on the channels: stop the zoom
channel, then start a new zoom animation on it. -/
def AnimChannels.smoothZoom (s : AnimChannels) : AnimChannels :=
  { s with zoom := true }

/-- Embeds GraphCamera.smoothPanAndZoom's effect on the channels: stop the
combined channel, then start a new combined animation on it. -/
def AnimChannels.smoothPanAndZoom (s : AnimChannels) : AnimChannels :=
  { s with panAndZoom := true }

/-- Embeds GraphCamera.reset's effect on the channels: it invokes
stopSmoothPanFn and stopSmoothZoomFn (and no other stop function) before
recomputing the view. -/
def AnimChannels.reset (s : AnimChannels) : AnimChannels :=
  { s with pan := false, zoom := false }

/-- Embeds GraphCamera.smoothReset's effect on the channels: it invokes
stopSmoothPanFn and stopSmoothZoomFn, then starts a combined pan-and-zoom
animation via smoothPanAndZoom. -/
def AnimChannels.smoothReset (s : AnimChannels) : AnimChannels :=
  AnimChannels.smoothPanAndZoom { s with pan := false, zoom := false }

/-- Embeds GraphCamera.destroy's effect on the channels: it invokes
stopSmoothPanFn and stopSmoothZoomFn (and no other stop function) before
completing the pan stream and releasing the pan/zoom engine. -/
def AnimChannels.destroy (s : AnimChannels) : AnimChannels :=
  { s with pan := false, zoom := false }

/-! Shared helper lemmas and sample data. -/

/-- Sample node at the origin used to instantiate theorems. -/
def nodeA : Node :=
  ⟨"a", some 0, some 0, 10, 10⟩

/-- Sample node below nodeA used to instantiate theorems. -/
def nodeB : Node :=
  ⟨"b", some 0, some 40, 10, 10⟩

/-- Reading an index below `n` out of a mapped range gives the function at
that index. -/
theorem getD_map_range {α : Type} (f : ℕ → α) {n i : ℕ} (d : α) (h : i < n) :
    ((List.range n).map f).getD i d = f i := by
  rw [List.getD_eq_getElem?_getD]
  simp [List.getElem?_map, List.getElem?_range, h]

/-- The point field of smoothed control data is the path point itself. -/
theorem getSmoothedControlPoints_point (sq : ℚ → ℚ) (points : List Point) (i : ℕ) :
    (getSmoothedControlPoints sq points i).point = points.getD i default := by
  simp [getSmoothedControlPoints]

/-- The point field of layout-curved control data is the path point itself. -/
theorem getLayoutCurvedControlPoints_point (p : Point) (layout : LayoutOptions) :
    (getLayoutCurvedControlPoints p layout).point = p := by
  simp [getLayoutCurvedControlPoints]

/-- A point whose neighbour distance is defined (neither first nor last) is
unimportant exactly when the distance test passes. -/
theorem isPointUnimportant_middle (sq : ℚ → ℚ) (points : List Point) (i : ℕ)
    (h0 : 0 < i) (h1 : i + 1 < points.length) :
    isPointUnimportant sq points i =
      decide (getDistanceFromLine sq (points.getD (i - 1) default)
        (points.getD (i + 1) default) (points.getD i default) ≤ 20) := by
  unfold isPointUnimportant
  rw [if_neg (by omega)]
  rfl

/-- Distance from the line through prior and next is zero for any point on
that line, for every square-root implementation: the projection direction is
a scalar multiple of the perpendicular of the line, and the line dotted with
its own perpendicular vanishes. -/
theorem getDistanceFromLine_collinear (sq : ℚ → ℚ) (prior next point : Point)
    (h : ∃ t : ℚ, point.x - prior.x = t * (next.x - prior.x)
      ∧ point.y - prior.y = t * (next.y - prior.y)) :
    getDistanceFromLine sq prior next point = 0 := by
  obtain ⟨t, hx, hy⟩ := h
  unfold getDistanceFromLine Vector.normalize
  simp only [createVectorBetweenPoints, createPerpendicularVector, Vector.dot,
    Vector.multiplyScalar, Vector.lengthOf]
  rw [hx, hy]
  generalize (if sq ((next.x - prior.x) * (next.x - prior.x)
    + (next.y - prior.y) * (next.y - prior.y)) = 0 then (0 : ℚ)
    else 1 / sq ((next.x - prior.x) * (next.x - prior.x)
      + (next.y - prior.y) * (next.y - prior.y))) = m
  have hzero : t * (next.x - prior.x) * -((next.y - prior.y) * m)
      + t * (next.y - prior.y) * ((next.x - prior.x) * m) = 0 := by ring
  rw [hzero, abs_zero]

/-- Point data for a two-point path: both points get smoothed control points
when the path goes backwards and layout-curved ones otherwise. -/
theorem createPointData_pair (sq : ℚ → ℚ) (a b : Point) (layout : LayoutOptions) :
    createPointData sq [a, b] layout =
      if doesPathGoBackwards [a, b] layout then
        [getSmoothedControlPoints sq [a, b] 0, getSmoothedControlPoints sq [a, b] 1]
      else [getLayoutCurvedControlPoints a layout, getLayoutCurvedControlPoints b layout] := by
  cases hgb : doesPathGoBackwards [a, b] layout <;>
    simp [createPointData, hgb, List.range_succ, isPointUnimportant, List.getD]

/-- Assembling a two-entry point-data list yields a move-to followed by a
single cubic bezier segment. -/
theorem createPathFromPointData_pair (d0 d1 : PathPointData) :
    createPathFromPointData [d0, d1] =
      moveTo d0.point ++ " "
        ++ cubicBezierTo d1.point d0.outgoingControlPoint d1.incomingControlPoint :=
  rfl

/-! Claim theorems. -/

/-- C1 counterexample: an oracle-supplied single-point waypoint list is not
normalized (the entry step only replaces an empty list), and both pinning
writes land on index 0, so the edge's points array keeps length 1, below the
claimed bound of 2. -/
theorem pinnedPoints_singleton_counterexample :
    (pinnedPoints ⟨nodeA, nodeB, [⟨3, 4⟩]⟩ ⟨.TOP_TO_BOTTOM⟩).length = 1
    ∧ ¬ 2 ≤ (pinnedPoints ⟨nodeA, nodeB, [⟨3, 4⟩]⟩ ⟨.TOP_TO_BOTTOM⟩).length := by
  decide

/-- C1 (amended): for every edge whose oracle-supplied waypoint list is not a
single point — in particular for the empty list and every list of length at
least 2 — the points array has length at least 2 after the smoothing-entry
normalization and connector pinning. -/
theorem pinnedPoints_length_ge_two (edge : Edge) (layout : LayoutOptions)
    (h : edge.points.length ≠ 1) :
    2 ≤ (pinnedPoints edge layout).length := by
  unfold pinnedPoints
  rcases hp : edge.points with _ | ⟨p, _ | ⟨q, rest⟩⟩
  · simp
  · exact absurd (by rw [hp]; rfl) h
  · simp

/-- C1 witness: the amended theorem applied to an edge with an empty waypoint
list. -/
theorem pinnedPoints_length_ge_two_witness :
    (⟨nodeA, nodeB, []⟩ : Edge).points.length ≠ 1
    ∧ 2 ≤ (pinnedPoints ⟨nodeA, nodeB, []⟩ ⟨.TOP_TO_BOTTOM⟩).length :=
  ⟨by decide, pinnedPoints_length_ge_two ⟨nodeA, nodeB, []⟩ ⟨.TOP_TO_BOTTOM⟩ (by decide)⟩

/-- C5: the destination node of this edge has an assigned position, x = 0 and
y = 5, yet trianglePoints raises the range error, because the source's guard
`!edge.dest.x` is satisfied by the number 0 as well as by an unset value;
this contradicts the error's own message, which promises a fault only for
nullish values. -/
theorem trianglePoints_faults_on_assigned_origin :
    (⟨"d", some 0, some 5, 10, 10⟩ : Node).x = some 0
    ∧ (⟨"d", some 0, some 5, 10, 10⟩ : Node).y = some 5
    ∧ trianglePoints ⟨nodeA, ⟨"d", some 0, some 5, 10, 10⟩, []⟩ ⟨.TOP_TO_BOTTOM⟩
        = Except.error ("Edge point should not be a nullish value.") :=
  ⟨rfl, rfl, rfl⟩

/-- C6 counterexample: destroy only invokes the stop functions of the pan and
zoom channels, so a combined pan-and-zoom animation started by
smoothPanAndZoom is still active after destroy — the claim that no animation
remains on any of the three channels fails. -/
theorem destroy_leaves_combined_animation_active :
    ((camInit.smoothPanAndZoom).destroy).panAndZoom = true
    ∧ ((camInit.smoothPanAndZoom).reset).panAndZoom = true :=
  ⟨rfl, rfl⟩

/-- C6 (amended): destroy and reset cancel any in-flight animation on the pan
channel and on the zoom channel before releasing or recomputing the view, so
after either call no animation is active on those two channels; the combined
pan-and-zoom channel is left untouched by both. -/
theorem destroy_reset_cancel_pan_zoom_channels :
    ∀ s : AnimChannels,
      (s.destroy).pan = false ∧ (s.destroy).zoom = false
      ∧ (s.reset).pan = false ∧ (s.reset).zoom = false
      ∧ (s.destroy).panAndZoom = s.panAndZoom
      ∧ (s.reset).panAndZoom = s.panAndZoom := by
  intro s
  exact ⟨rfl, rfl, rfl, rfl, rfl, rfl⟩

/-- C7 counterexample: zoomIn multiplies the current zoom by the fixed
constant 1 + 0.4 on every platform; on the Macintosh platform family the
claim demands the factor 1 + 0.09, which differs. -/
theorem zoomIn_ignores_platform_counterexample :
    (GraphCamera.zoomIn 1).target = 7 / 5
    ∧ zoomInTargetPerClaim true 1 = 109 / 100
    ∧ (7 / 5 : ℚ) ≠ 109 / 100 := by
  unfold GraphCamera.zoomIn zoomInTargetPerClaim zoomScaleSensitivity
    ZOOM_SENSITIVITY MAC_ZOOM_SENSITIVITY
  norm_num

/-- C7 (amended): zoomIn multiplies the current zoom by 1 + s and zoomOut by
1 / (1 + s) where s is the fixed constant 0.4 regardless of platform, and
both are animated smoothly over the default 250ms; the platform-dependent
sensitivity — smaller on the Macintosh platform family — applies only to the
scroll-wheel zoom configuration of the pan/zoom engine. -/
theorem zoomIn_zoomOut_fixed_sensitivity :
    ∀ z : ℚ,
      GraphCamera.zoomIn z = ⟨z * (1 + 4 / 10), 250⟩
      ∧ GraphCamera.zoomOut z = ⟨z * (1 / (1 + 4 / 10)), 250⟩
      ∧ zoomScaleSensitivity true = 9 / 100
      ∧ zoomScaleSensitivity false = 4 / 10
      ∧ zoomScaleSensitivity true < zoomScaleSensitivity false := by
  intro z
  refine ⟨rfl, rfl, ?_, ?_, ?_⟩ <;>
    · unfold zoomScaleSensitivity ZOOM_SENSITIVITY MAC_ZOOM_SENSITIVITY
      norm_num

/-- C8: normalizing the zero vector yields the zero vector and the length of
the zero vector is 0, for every square-root implementation that is zero at
zero (as the host's is); Vector.normalize is a total function on all vectors
by construction, with the division-by-zero case guarded by the scale-by-zero
branch. -/
theorem normalize_zero_vector (sq : ℚ → ℚ) (h : sq 0 = 0) :
    Vector.normalize sq ⟨0, 0⟩ = ⟨0, 0⟩ ∧ Vector.lengthOf sq ⟨0, 0⟩ = 0 := by
  constructor
  · simp [Vector.normalize, Vector.lengthOf, Vector.multiplyScalar, h]
  · simpa [Vector.lengthOf] using h

/-- C8 witness: the theorem applied to the identity as the square-root
implementation, which maps 0 to 0. -/
theorem normalize_zero_vector_witness :
    Vector.normalize id ⟨0, 0⟩ = ⟨0, 0⟩ ∧ Vector.lengthOf id ⟨0, 0⟩ = 0 :=
  normalize_zero_vector id rfl

/-- C9: pointsToLines yields the empty string for a missing list and for
every list of fewer than 2 points, and for 2 or more points a single move-to
command joining all points; in particular the three concrete cases of the
claim. -/
theorem pointsToLines_spec :
    (∀ points : List Point,
      pointsToLines (some points) =
        if points.length < 2 then ""
        else "M " ++ String.intercalate (" ") (points.map pointStr))
    ∧ pointsToLines none = ""
    ∧ pointsToLines (some []) = ""
    ∧ pointsToLines (some [⟨0, 0⟩]) = ""
    ∧ pointsToLines (some [⟨0, 0⟩, ⟨1, 1⟩]) = "M 0,0 1,1" := by
  refine ⟨fun points => rfl, rfl, rfl, rfl, by decide⟩

/-- Follows the claim's words: the flow unit vector the claim assigns to each
rank direction, for comparison with the source-derived getLayoutVector. -/
def flowUnitPerClaim (d : RankDirection) : ℚ × ℚ :=
  match d with
  | .TOP_TO_BOTTOM => (0, 1)
  | .BOTTOM_TO_TOP => (0, -1)
  | .LEFT_TO_RIGHT => (1, 0)
  | .RIGHT_TO_LEFT => (-1, 0)

/-- C2: a segment goes backwards exactly when the component-wise product of
its delta with the claim's flow unit vector has a negative x or y component;
the path goes backwards exactly when some consecutive segment does; and when
the path goes backwards every point of it — including the first and last —
receives smoothed control points. -/
theorem path_backwards_global_smoothing :
    (∀ (p1 p2 : Point) (layout : LayoutOptions),
      isLineGoingBackwards p1 p2 (getLayoutVector layout) = true ↔
        ((p2.x - p1.x) * (flowUnitPerClaim layout.rankDirection).1 < 0
          ∨ (p2.y - p1.y) * (flowUnitPerClaim layout.rankDirection).2 < 0))
    ∧ (∀ (points : List Point) (layout : LayoutOptions),
      doesPathGoBackwards points layout = true ↔
        ∃ i, i < points.length - 1
          ∧ isLineGoingBackwards (points.getD i default) (points.getD (i + 1) default)
              (getLayoutVector layout) = true)
    ∧ (∀ (sq : ℚ → ℚ) (points : List Point) (layout : LayoutOptions) (i : ℕ),
      doesPathGoBackwards points layout = true → i < points.length →
        (createPointData sq points layout).getD i default
          = getSmoothedControlPoints sq points i) := by
  refine ⟨?_, ?_, ?_⟩
  · intro p1 p2 layout
    obtain ⟨d⟩ := layout
    cases d <;>
      simp [isLineGoingBackwards, getLayoutVector, createVectorBetweenPoints,
        flowUnitPerClaim]
  · intro points layout
    simp [doesPathGoBackwards, List.any_eq_true, List.mem_range]
  · intro sq points layout i hgb hi
    simp only [createPointData]
    rw [getD_map_range _ _ hi, if_pos hgb]

/-- C2 witness: the path from the origin to a point one unit leftward in a
left-to-right layout goes backwards, and its first point receives smoothed
control points. -/
theorem path_backwards_global_smoothing_witness :
    doesPathGoBackwards [⟨0, 0⟩, ⟨-1, 0⟩] ⟨.LEFT_TO_RIGHT⟩ = true
    ∧ (createPointData id [⟨0, 0⟩, ⟨-1, 0⟩] ⟨.LEFT_TO_RIGHT⟩).getD 0 default
        = getSmoothedControlPoints id [⟨0, 0⟩, ⟨-1, 0⟩] 0 := by
  have h : doesPathGoBackwards [⟨0, 0⟩, ⟨-1, 0⟩] ⟨.LEFT_TO_RIGHT⟩ = true := by
    simp [doesPathGoBackwards, isLineGoingBackwards, getLayoutVector,
      createVectorBetweenPoints, List.getD]
  exact ⟨h,
    path_backwards_global_smoothing.2.2 id [⟨0, 0⟩, ⟨-1, 0⟩] ⟨.LEFT_TO_RIGHT⟩ 0 h
      (by norm_num)⟩

/-- C3: the connector points of a node are its center offset by half its
height (vertical flows) or half its width (horizontal flows) along the flow
axis, per direction; and the curved path of any 2-point edge is exactly a
move-to at the src node's output connector followed by one cubic bezier
segment terminating at the dest node's input connector. -/
theorem connector_points_and_two_point_path :
    (∀ (node : Node) (cx cy : ℚ), node.x = some cx → node.y = some cy →
      getConnectorPointsForNode node ⟨.TOP_TO_BOTTOM⟩
        = ⟨⟨cx, cy - node.height / 2⟩, ⟨cx, cy + node.height / 2⟩⟩
      ∧ getConnectorPointsForNode node ⟨.BOTTOM_TO_TOP⟩
        = ⟨⟨cx, cy + node.height / 2⟩, ⟨cx, cy - node.height / 2⟩⟩
      ∧ getConnectorPointsForNode node ⟨.LEFT_TO_RIGHT⟩
        = ⟨⟨cx - node.width / 2, cy⟩, ⟨cx + node.width / 2, cy⟩⟩
      ∧ getConnectorPointsForNode node ⟨.RIGHT_TO_LEFT⟩
        = ⟨⟨cx + node.width / 2, cy⟩, ⟨cx - node.width / 2, cy⟩⟩)
    ∧ (∀ (sq : ℚ → ℚ) (edge : Edge) (layout : LayoutOptions),
      edge.points.length = 2 →
      ∃ c1 c2 : Point,
        curvedPath sq edge layout
          = moveTo (getConnectorPointsForNode edge.src layout).output ++ " "
            ++ cubicBezierTo (getConnectorPointsForNode edge.dest layout).input c1 c2) := by
  constructor
  · intro node cx cy hx hy
    refine ⟨?_, ?_, ?_, ?_⟩ <;> simp [getConnectorPointsForNode, hx, hy]
  · intro sq edge layout h2
    obtain ⟨p, q, hpq⟩ := List.length_eq_two.mp h2
    have hpin : pinnedPoints edge layout
        = [(getConnectorPointsForNode edge.src layout).output,
           (getConnectorPointsForNode edge.dest layout).input] := by
      simp [pinnedPoints, hpq, List.set]
    simp only [curvedPath]
    rw [hpin, createPointData_pair]
    by_cases hgb : doesPathGoBackwards
        [(getConnectorPointsForNode edge.src layout).output,
         (getConnectorPointsForNode edge.dest layout).input] layout = true
    · rw [if_pos hgb, createPathFromPointData_pair]
      exact ⟨_, _, rfl⟩
    · rw [if_neg hgb, createPathFromPointData_pair]
      exact ⟨_, _, rfl⟩

/-- C3 witness: the theorem applied to a node with position (1, 2) and to a
2-point edge in a top-to-bottom layout. -/
theorem connector_points_and_two_point_path_witness :
    getConnectorPointsForNode ⟨"w", some 1, some 2, 10, 20⟩ ⟨.TOP_TO_BOTTOM⟩
      = ⟨⟨1, 2 - (⟨"w", some 1, some 2, 10, 20⟩ : Node).height / 2⟩,
         ⟨1, 2 + (⟨"w", some 1, some 2, 10, 20⟩ : Node).height / 2⟩⟩
    ∧ ∃ c1 c2 : Point,
      curvedPath id ⟨nodeA, nodeB, [⟨0, 0⟩, ⟨9, 9⟩]⟩ ⟨.TOP_TO_BOTTOM⟩
        = moveTo (getConnectorPointsForNode nodeA ⟨.TOP_TO_BOTTOM⟩).output ++ " "
          ++ cubicBezierTo (getConnectorPointsForNode nodeB ⟨.TOP_TO_BOTTOM⟩).input c1 c2 :=
  ⟨(connector_points_and_two_point_path.1 ⟨"w", some 1, some 2, 10, 20⟩ 1 2 rfl rfl).1,
   connector_points_and_two_point_path.2 id ⟨nodeA, nodeB, [⟨0, 0⟩, ⟨9, 9⟩]⟩
     ⟨.TOP_TO_BOTTOM⟩ rfl⟩

/-- C4: the first and last points of a path are never unimportant; an
interior point is unimportant exactly when its perpendicular distance to the
line through its neighbours is at most 20 pixels; that distance is 0 for
every collinear triple, whatever the square-root implementation, so a
collinear interior point always takes the smoothing branch of
createPointData. -/
theorem unimportant_point_characterization :
    (∀ (sq : ℚ → ℚ) (points : List Point) (i : ℕ),
      i = 0 ∨ points.length ≤ i + 1 → isPointUnimportant sq points i = false)
    ∧ (∀ (sq : ℚ → ℚ) (points : List Point) (i : ℕ),
      0 < i → i + 1 < points.length →
      (isPointUnimportant sq points i = true ↔
        getDistanceFromLine sq (points.getD (i - 1) default) (points.getD (i + 1) default)
          (points.getD i default) ≤ 20))
    ∧ (∀ (sq : ℚ → ℚ) (prior next point : Point),
      (∃ t : ℚ, point.x - prior.x = t * (next.x - prior.x)
        ∧ point.y - prior.y = t * (next.y - prior.y)) →
      getDistanceFromLine sq prior next point = 0)
    ∧ (∀ (sq : ℚ → ℚ) (points : List Point) (layout : LayoutOptions) (i : ℕ),
      0 < i → i + 1 < points.length →
      (∃ t : ℚ, (points.getD i default).x - (points.getD (i - 1) default).x
          = t * ((points.getD (i + 1) default).x - (points.getD (i - 1) default).x)
        ∧ (points.getD i default).y - (points.getD (i - 1) default).y
          = t * ((points.getD (i + 1) default).y - (points.getD (i - 1) default).y)) →
      (createPointData sq points layout).getD i default
        = getSmoothedControlPoints sq points i) := by
  refine ⟨?_, ?_, ?_, ?_⟩
  · intro sq points i h
    unfold isPointUnimportant
    rw [if_pos h]
  · intro sq points i h0 h1
    rw [isPointUnimportant_middle sq points i h0 h1]
    simp [UNIMPORTANT_POINT_DISTANCE_THRESHOLD_PX]
  · exact getDistanceFromLine_collinear
  · intro sq points layout i h0 h1 hcol
    simp only [createPointData]
    rw [getD_map_range _ _ (by omega)]
    by_cases hgb : doesPathGoBackwards points layout = true
    · rw [if_pos hgb]
    · rw [if_neg hgb]
      have himp : isPointUnimportant sq points i = true := by
        rw [isPointUnimportant_middle sq points i h0 h1,
          getDistanceFromLine_collinear sq _ _ _ hcol]
        norm_num
      rw [if_pos himp]

/-- C4 witness: the theorem applied to the collinear path through (0,0),
(1,1) and (2,2): the first point is never unimportant, the middle point's
distance is 0, and the middle point takes the smoothing branch. -/
theorem unimportant_point_characterization_witness :
    isPointUnimportant id [⟨0, 0⟩, ⟨1, 1⟩, ⟨2, 2⟩] 0 = false
    ∧ getDistanceFromLine id ⟨0, 0⟩ ⟨2, 2⟩ ⟨1, 1⟩ = 0
    ∧ (createPointData id [⟨0, 0⟩, ⟨1, 1⟩, ⟨2, 2⟩] ⟨.TOP_TO_BOTTOM⟩).getD 1 default
        = getSmoothedControlPoints id [⟨0, 0⟩, ⟨1, 1⟩, ⟨2, 2⟩] 1 :=
  ⟨unimportant_point_characterization.1 id [⟨0, 0⟩, ⟨1, 1⟩, ⟨2, 2⟩] 0 (Or.inl rfl),
   unimportant_point_characterization.2.2.1 id ⟨0, 0⟩ ⟨2, 2⟩ ⟨1, 1⟩
     ⟨1 / 2, by norm_num, by norm_num⟩,
   unimportant_point_characterization.2.2.2 id [⟨0, 0⟩, ⟨1, 1⟩, ⟨2, 2⟩] ⟨.TOP_TO_BOTTOM⟩ 1
     (by norm_num) (by norm_num)
     ⟨1 / 2, by norm_num [List.getD], by norm_num [List.getD]⟩⟩

end DirectedGraph
